import Mathlib

/-!
Shallow embedding of the `insteon-serial` crate: the X10 sub-protocol codec
(`src/x10.rs`), the command codec (`src/command.rs`), value types
(`src/device.rs`, `src/link.rs`, `src/button.rs`, `src/message.rs`) and the
serial frame decoders (`src/serial.rs`).  Bytes are modelled as `Nat`
(every wire byte is < 256; bit operations agree with `u8` on that range).
The byte source is modelled as a `List Nat`: the bytes the port will
deliver before the first read failure.  A Rust `panic!` (from `.unwrap()`
on a failed read, or from `unimplemented!()`) is modelled explicitly by the
`Outcome.panic` constructor.
-/

/-! ## src/x10.rs -/

namespace X10

/-- The house code for the X10 message (A-P), from `x10.rs`. -/
inductive HouseCode
| A | B | C | D | E | F | G | H | I | J | K | L | M | N | O | P
deriving DecidableEq, Fintype

/-- `HouseCode::try_from` in `x10.rs`: nibble to house code. -/
def HouseCode.tryFrom (byte : Nat) : Option HouseCode :=
  if byte = 0x6 then some .A
  else if byte = 0xE then some .B
  else if byte = 0x2 then some .C
  else if byte = 0xA then some .D
  else if byte = 0x1 then some .E
  else if byte = 0x9 then some .F
  else if byte = 0x5 then some .G
  else if byte = 0xD then some .H
  else if byte = 0x7 then some .I
  else if byte = 0xF then some .J
  else if byte = 0x3 then some .K
  else if byte = 0xB then some .L
  else if byte = 0x0 then some .M
  else if byte = 0x8 then some .N
  else if byte = 0x4 then some .O
  else if byte = 0xC then some .P
  else none

/-- The unit code for an X10 message, from `x10.rs`. -/
structure UnitCode where
  val : Nat
deriving DecidableEq

/-- `UnitCode::try_from` in `x10.rs`: nibble to unit code 1..16. -/
def UnitCode.tryFrom (byte : Nat) : Option UnitCode :=
  if byte = 0x6 then some ⟨1⟩
  else if byte = 0xE then some ⟨2⟩
  else if byte = 0x2 then some ⟨3⟩
  else if byte = 0xA then some ⟨4⟩
  else if byte = 0x1 then some ⟨5⟩
  else if byte = 0x9 then some ⟨6⟩
  else if byte = 0x5 then some ⟨7⟩
  else if byte = 0xD then some ⟨8⟩
  else if byte = 0x7 then some ⟨9⟩
  else if byte = 0xF then some ⟨10⟩
  else if byte = 0x3 then some ⟨11⟩
  else if byte = 0xB then some ⟨12⟩
  else if byte = 0x0 then some ⟨13⟩
  else if byte = 0x8 then some ⟨14⟩
  else if byte = 0x4 then some ⟨15⟩
  else if byte = 0xC then some ⟨16⟩
  else none

/-- An X10 command, from `x10.rs` (15 variants). -/
inductive Command
| allLightsOff | statusOff | on | presetDim | allLightsOn | hailAcknowledge
| bright | statusOn | extendedCode | statusRequest | off | allUnitsOff
| hailRequest | dim | extendedAnalogData
deriving DecidableEq, Fintype

/-- `Command::try_from` in `x10.rs`: nibble to X10 command.  Note both
`0xA` and `0xB` map to `PresetDim`, exactly as in the source. -/
def Command.tryFrom (byte : Nat) : Option Command :=
  if byte = 0x6 then some .allLightsOff
  else if byte = 0xE then some .statusOff
  else if byte = 0x2 then some .on
  else if byte = 0xA then some .presetDim
  else if byte = 0x1 then some .allLightsOn
  else if byte = 0x9 then some .hailAcknowledge
  else if byte = 0x5 then some .bright
  else if byte = 0xD then some .statusOn
  else if byte = 0x7 then some .extendedCode
  else if byte = 0xF then some .statusRequest
  else if byte = 0x3 then some .off
  else if byte = 0xB then some .presetDim
  else if byte = 0x0 then some .allUnitsOff
  else if byte = 0x8 then some .hailRequest
  else if byte = 0x4 then some .dim
  else if byte = 0xC then some .extendedAnalogData
  else none

/-- The X10 message payload, from `x10.rs`. -/
inductive Payload
| unitCode (u : UnitCode)
| command (c : Command)
deriving DecidableEq

/-- An X10 message, from `x10.rs`. -/
structure Message where
  house : HouseCode
  payload : Payload
  success : Bool
deriving DecidableEq

/-- `Message::try_from` in `x10.rs`, applied to the three payload bytes. -/
def Message.tryFrom (b0 b1 b2 : Nat) : Option Message :=
  let high := b0 >>> 4
  let low := b0 &&& 0x0f
  let success := b2 == 0x06
  (HouseCode.tryFrom high).bind fun house =>
    if b1 = 0x00 then
      (UnitCode.tryFrom low).map fun unit =>
        { house := house, payload := .unitCode unit, success := success }
    else if b1 = 0x80 then
      (Command.tryFrom low).map fun cmd =>
        { house := house, payload := .command cmd, success := success }
    else none

/-- Modelled from the spec: the encode direction of the sub-protocol codec
(value to 4-bit nibble) is absent from the source, which only decodes; the
spec's permutation table (house code at index i maps to the nibble whose
decode index is i) determines it uniquely for house codes. -/
def HouseCode.nibble : HouseCode → Nat
| .A => 0x6 | .B => 0xE | .C => 0x2 | .D => 0xA
| .E => 0x1 | .F => 0x9 | .G => 0x5 | .H => 0xD
| .I => 0x7 | .J => 0xF | .K => 0x3 | .L => 0xB
| .M => 0x0 | .N => 0x8 | .O => 0x4 | .P => 0xC

/-- Modelled from the spec: encode direction for unit codes (unit value
1..16 to nibble), the inverse of the `UnitCode::try_from` table; values
outside 1..16 (unreachable from decoding) are sent to 0. -/
def UnitCode.nibble (u : UnitCode) : Nat :=
  if u.val = 1 then 0x6
  else if u.val = 2 then 0xE
  else if u.val = 3 then 0x2
  else if u.val = 4 then 0xA
  else if u.val = 5 then 0x1
  else if u.val = 6 then 0x9
  else if u.val = 7 then 0x5
  else if u.val = 8 then 0xD
  else if u.val = 9 then 0x7
  else if u.val = 10 then 0xF
  else if u.val = 11 then 0x3
  else if u.val = 12 then 0xB
  else if u.val = 13 then 0x0
  else if u.val = 14 then 0x8
  else if u.val = 15 then 0x4
  else if u.val = 16 then 0xC
  else 0

/-- Modelled from the spec: encode direction for X10 commands.  The decode
table is not injective (`0xA` and `0xB` both decode to `presetDim`), so any
encode must choose one preimage for `presetDim`; `0xA` (the first listed)
is chosen. -/
def Command.nibble : Command → Nat
| .allLightsOff => 0x6
| .statusOff => 0xE
| .on => 0x2
| .presetDim => 0xA
| .allLightsOn => 0x1
| .hailAcknowledge => 0x9
| .bright => 0x5
| .statusOn => 0xD
| .extendedCode => 0x7
| .statusRequest => 0xF
| .off => 0x3
| .allUnitsOff => 0x0
| .hailRequest => 0x8
| .dim => 0x4
| .extendedAnalogData => 0xC

end X10

/-! ## src/command.rs -/

/-- An ALL-Link group number, from `command.rs`. -/
structure GroupNumber where
  val : Nat
deriving DecidableEq

/-- The "on level" associated with an on command, from `command.rs`. -/
structure OnLevel where
  val : Nat
deriving DecidableEq

/-- Movement direction for dimming, from `command.rs`. -/
inductive BrightDim
| bright
| dim
deriving DecidableEq

/-- The payload of an on command, from `command.rs`. -/
inductive OnPayload
| groupNumber (g : GroupNumber)
| onLevel (l : OnLevel)
deriving DecidableEq

/-- A command to be executed by the recipient, from `command.rs`. -/
inductive Command
| on (p : OnPayload)
| fastOn (g : Option GroupNumber)
| off (g : Option GroupNumber)
| fastOff (g : Option GroupNumber)
| bright (g : Option GroupNumber)
| dim (g : Option GroupNumber)
| start (d : BrightDim)
| stop
| idRequest
| statusRequest
| beginLinking (g : GroupNumber)
| beginUnlinking (g : GroupNumber)
| cancelLinking
deriving DecidableEq

/-- `group_or_none` in `command.rs`. -/
def group_or_none (byte : Nat) : Option GroupNumber :=
  if byte = 0 then none else some ⟨byte⟩

/-- `Command::try_from` in `command.rs`: a pair of bytes to a command. -/
def Command.tryFrom (bytes : Nat × Nat) : Option Command :=
  if bytes.1 = 0x11 then some (.on (.groupNumber ⟨bytes.2⟩))
  else if bytes.1 = 0x12 then some (.fastOn (group_or_none bytes.2))
  else if bytes.1 = 0x13 then some (.off (group_or_none bytes.2))
  else if bytes.1 = 0x14 then some (.fastOff (group_or_none bytes.2))
  else if bytes.1 = 0x15 then some (.bright (group_or_none bytes.2))
  else if bytes.1 = 0x16 then some (.dim (group_or_none bytes.2))
  else if bytes.1 = 0x17 then
    some (.start (if bytes.2 = 0x01 then .bright else .dim))
  else if bytes.1 = 0x18 then some .stop
  else if bytes.1 = 0x10 then some .idRequest
  else if bytes.1 = 0x19 then some .statusRequest
  else if bytes.1 = 0x09 then some (.beginLinking ⟨bytes.2⟩)
  else if bytes.1 = 0x0A then some (.beginUnlinking ⟨bytes.2⟩)
  else if bytes.1 = 0x08 then some .cancelLinking
  else none

/-- `group_or_zero` in `command.rs`. -/
def group_or_zero (group : Option GroupNumber) : Nat :=
  (group.map GroupNumber.val).getD 0

/-- `Into<[u8; 2]> for Command` in `command.rs`: the encode direction. -/
def Command.encode : Command → Nat × Nat
| .on p =>
  (0x11, match p with
         | .onLevel level => level.val
         | .groupNumber group => group.val)
| .fastOn group => (0x12, group_or_zero group)
| .off group => (0x13, group_or_zero group)
| .fastOff group => (0x14, group_or_zero group)
| .bright group => (0x15, group_or_zero group)
| .dim group => (0x16, group_or_zero group)
| .start d => (0x17, match d with | .bright => 0x01 | .dim => 0x00)
| .stop => (0x18, 0)
| .idRequest => (0x10, 0)
| .statusRequest => (0x19, 0)
| .beginLinking group => (0x09, group.val)
| .beginUnlinking group => (0x0A, group.val)
| .cancelLinking => (0x08, 0)

/-! ## src/device.rs -/

/-- A device address, from `device.rs`: three bytes, high/middle/low. -/
structure Address where
  b0 : Nat
  b1 : Nat
  b2 : Nat
deriving DecidableEq

/-- `Address::reduce` in `device.rs`. -/
def Address.reduce (a : Address) : Nat :=
  (a.b0 <<< 16) + (a.b1 <<< 8) + a.b2

/-- Result of a `fmt::Display` formatting call: either a produced string or
a panic of the formatting body. -/
inductive FmtOutcome
| ok (s : String)
| panicked
deriving DecidableEq

/-- `impl fmt::Display for Address` in `device.rs`: the body is
`unimplemented!()`, i.e. an unconditional panic. -/
def Address.displayFmt (_ : Address) : FmtOutcome := .panicked

/-! ## src/link.rs -/

/-- Stores link data from link messages, from `link.rs` (`[u8; 3]`). -/
structure LinkData where
  d0 : Nat
  d1 : Nat
  d2 : Nat
deriving DecidableEq

/-- The result of a linking attempt, from `link.rs`. -/
structure LinkResult where
  is_controller : Option Bool
  group : Nat
  id : Address
  category : Nat × Nat
  firmware : Option Nat
deriving DecidableEq

/-- `From<[u8; 8]> for LinkResult` in `link.rs`. -/
def LinkResult.fromBytes (b0 b1 b2 b3 b4 b5 b6 b7 : Nat) : LinkResult :=
  { is_controller :=
      if b0 = 0x00 then some false
      else if b0 = 0x01 then some true
      else none
    group := b1
    id := ⟨b2, b3, b4⟩
    category := (b5, b6)
    firmware := if b7 = 0xFF then none else some b7 }

/-- `LinkResult::is_slave` in `link.rs`. -/
def LinkResult.is_slave (r : LinkResult) : Bool :=
  r.is_controller == some false

/-- `LinkResult::is_responder` in `link.rs` (identical to `is_slave`). -/
def LinkResult.is_responder (r : LinkResult) : Bool :=
  r.is_slave

/-- `LinkResult::is_master` in `link.rs`. -/
def LinkResult.is_master (r : LinkResult) : Bool :=
  r.is_controller == some true

/-- `LinkResult::is_controller` the accessor in `link.rs` (identical to
`is_master`); renamed to avoid clashing with the field projection. -/
def LinkResult.isControllerAcc (r : LinkResult) : Bool :=
  r.is_master

/-- `LinkResult::deleted` in `link.rs`. -/
def LinkResult.deleted (r : LinkResult) : Bool :=
  r.is_controller == none

/-- `LinkResult::category` the accessor in `link.rs`; renamed to avoid
clashing with the field projection. -/
def LinkResult.categoryAcc (r : LinkResult) : Option Nat :=
  if r.isControllerAcc then some r.category.1 else none

/-- `LinkResult::subcategory` in `link.rs`. -/
def LinkResult.subcategoryAcc (r : LinkResult) : Option Nat :=
  if r.isControllerAcc then some r.category.2 else none

/-- `LinkResult::firmware` the accessor in `link.rs`; renamed to avoid
clashing with the field projection. -/
def LinkResult.firmwareAcc (r : LinkResult) : Option Nat :=
  if r.isControllerAcc then r.firmware else none

/-! ## src/button.rs -/

/-- A button on an Insteon device, from `button.rs`. -/
inductive Button
| set
| two
| three
deriving DecidableEq

/-- An event related to buttons on a device, from `button.rs`. -/
inductive ButtonEvent
| tapped (b : Button)
| held (b : Button)
| released (b : Button)
deriving DecidableEq

/-! ## src/message.rs -/

/-- A modem configuration, from `message.rs`. -/
structure Config where
  auto_link : Bool
  monitor : Bool
  manual_led : Bool
  timeout : Bool
  busy_reject : Bool
deriving DecidableEq

/-- `Into<u8> for Config` in `message.rs`. -/
def Config.toByte (c : Config) : Nat :=
  ((!c.auto_link).toNat <<< 7) ||| (c.monitor.toNat <<< 6)
    ||| (c.manual_led.toNat <<< 5) ||| ((!c.timeout).toNat <<< 4)
    ||| (c.busy_reject.toNat <<< 3)

/-- `From<u8> for Config` in `message.rs`. -/
def Config.fromByte (byte : Nat) : Config :=
  { auto_link := byte &&& 0b10000000 == 0
    monitor := byte &&& 0b01000000 == 0b01000000
    manual_led := byte &&& 0b00100000 == 0b00100000
    timeout := byte &&& 0b00010000 == 0
    busy_reject := byte &&& 0b00001000 == 0b00001000 }

/-- `Default for Config` in `message.rs`. -/
def Config.default : Config :=
  { auto_link := true, monitor := false, manual_led := false
    timeout := true, busy_reject := false }

/-- Messages delivered by the modem, from `message.rs`.  The extended data
block (`[u8; 14]`) is a 14-element byte list. -/
inductive Message
| received (addr : Address) (cmd : Option Command) (flags : Nat)
    (data : Option (List Nat))
| x10Received (m : X10.Message)
| linkComplete (r : LinkResult)
| buttonEvent (e : ButtonEvent)
| userResetDetected
| linkCleanupFailed (group : Nat) (addr : Address)
| linkRecordResponse (flags : Nat) (group : Nat) (addr : Address)
    (link : LinkData)
| linkCleanupStatus (finished : Bool)
| databaseRecordFound (addr : Nat × Nat) (flags : Nat) (group : Nat)
    (id : Address) (link : LinkData)
deriving DecidableEq

/-- Responses delivered by the modem, from `message.rs`. -/
inductive Response
| gotInfo (addr : Address) (category : Nat × Nat) (version : Option Nat)
| sentLinkCommand (group : Nat) (command : Nat) (broadcast : Nat)
| sentMessage (m : Message)
| sentX10 (m : X10.Message)
| startedLink (role : Nat) (group : Nat)
| canceledLink
| setCategory (category : Nat × Nat) (firmware : Option Nat)
| reset
| setAckByte (b : Nat)
| gotFirstLinkRecord
| gotNextLinkRecord
| setConfig (c : Config)
| gotSenderLinkRecord
| ledOn
| ledOff
| updatedLinkRecord (control : Nat) (record : Nat) (group : Nat)
    (addr : Address) (link : Nat × Nat × Nat)
| setNakByte (b : Nat)
| setAckBytes (bs : Nat × Nat)
| sleeping
| gotConfig (c : Config)
| canceledCleanup
| readDatabaseBytes (bs : Nat × Nat)
| beeping
| setStatus (b : Nat)
| setLinkData (ds : Nat × Nat × Nat)
| setRetries (n : Nat)
| setFrequencyOffset (n : Nat)
| setTempLincAck (b : Nat)
deriving DecidableEq

/-! ## src/serial.rs

The byte source (`SerialPort`) is modelled as the list of bytes it will
deliver before it fails: `next_byte` on an exhausted source is `none`
(covering both a failing `bytes_to_read` query and a failing `read_exact`
after bytes were reported available).  `next_message`/`next_response` call
`.unwrap()` on every read, so a failed read inside them is a panic, and
the `0x62` arm of `next_response` is `unimplemented!()`: both panics are
modelled by `Outcome.panic` with the panic's origin. -/

/-- The two panic sites of `serial.rs`: `.unwrap()` on a `None` read, and
the `unimplemented!()` arm. -/
inductive PanicKind
| unwrapNone
| notImplemented
deriving DecidableEq

/-- Result of one top-level decode call: a value plus the bytes left in
the source (Rust `Some(v)`), the terminal no-value result (Rust `None`),
or a thread panic. -/
inductive Outcome (α : Type)
| ok (val : α) (rest : List Nat)
| noValue
| panic (k : PanicKind)
deriving DecidableEq

/-- `next_byte` in `serial.rs`: the next byte of the source, or `None`
once the source has failed. -/
def next_byte : List Nat → Option (Nat × List Nat)
| [] => none
| b :: rest => some (b, rest)

/-- `next_message` in `serial.rs`.  The body is `Some(loop { ... })` with
every read unwrapped, so the translation produces `.ok` or `.panic` and
never `.noValue`. -/
def next_message : List Nat → Outcome Message
| [] => .panic .unwrapNone
| b :: rest =>
  if b = 0x02 then
    match rest with
    | [] => .panic .unwrapNone
    | o :: t =>
      if o = 0x50 then
        match t with
        | b0 :: b1 :: b2 :: b3 :: b4 :: b5 :: t2 =>
          .ok (.received ⟨b0, b1, b2⟩ (Command.tryFrom (b3, b4)) b5 none) t2
        | _ => .panic .unwrapNone
      else if o = 0x51 then
        match t with
        | b0 :: b1 :: b2 :: b3 :: b4 :: b5 :: b6 :: b7 :: b8 :: b9 :: b10 ::
            b11 :: b12 :: b13 :: b14 :: b15 :: b16 :: b17 :: b18 :: b19 :: t2 =>
          .ok (.received ⟨b0, b1, b2⟩ (Command.tryFrom (b3, b4)) b5
            (some [b6, b7, b8, b9, b10, b11, b12, b13, b14, b15, b16, b17,
                   b18, b19])) t2
        | _ => .panic .unwrapNone
      else if o = 0x52 then
        match t with
        | b0 :: b1 :: b2 :: t2 =>
          match X10.Message.tryFrom b0 b1 b2 with
          | some msg => .ok (.x10Received msg) t2
          | none => next_message t2
        | _ => .panic .unwrapNone
      else if o = 0x53 then
        match t with
        | b0 :: b1 :: b2 :: b3 :: b4 :: b5 :: b6 :: b7 :: t2 =>
          .ok (.linkComplete (LinkResult.fromBytes b0 b1 b2 b3 b4 b5 b6 b7)) t2
        | _ => .panic .unwrapNone
      else if o = 0x54 then
        match t with
        | s :: t2 =>
          if s = 0x02 then .ok (.buttonEvent (.tapped .set)) t2
          else if s = 0x03 then .ok (.buttonEvent (.held .set)) t2
          else if s = 0x04 then .ok (.buttonEvent (.released .set)) t2
          else if s = 0x12 then .ok (.buttonEvent (.tapped .two)) t2
          else if s = 0x13 then .ok (.buttonEvent (.held .two)) t2
          else if s = 0x14 then .ok (.buttonEvent (.released .two)) t2
          else if s = 0x22 then .ok (.buttonEvent (.tapped .three)) t2
          else if s = 0x23 then .ok (.buttonEvent (.held .three)) t2
          else if s = 0x24 then .ok (.buttonEvent (.released .three)) t2
          else next_message t2
        | _ => .panic .unwrapNone
      else if o = 0x55 then .ok .userResetDetected t
      else if o = 0x56 then
        match t with
        | _pad :: g :: a0 :: a1 :: a2 :: t2 =>
          .ok (.linkCleanupFailed g ⟨a0, a1, a2⟩) t2
        | _ => .panic .unwrapNone
      else if o = 0x57 then
        match t with
        | flags :: g :: i0 :: i1 :: i2 :: l0 :: l1 :: l2 :: t2 =>
          .ok (.linkRecordResponse flags g ⟨i0, i1, i2⟩ ⟨l0, l1, l2⟩) t2
        | _ => .panic .unwrapNone
      else if o = 0x58 then
        match t with
        | s :: t2 => .ok (.linkCleanupStatus (s == 0x06)) t2
        | _ => .panic .unwrapNone
      else if o = 0x59 then
        match t with
        | a0 :: a1 :: flags :: g :: i0 :: i1 :: i2 :: l0 :: l1 :: l2 :: t2 =>
          .ok (.databaseRecordFound (a0, a1) flags g ⟨i0, i1, i2⟩
            ⟨l0, l1, l2⟩) t2
        | _ => .panic .unwrapNone
      else next_message t
  else next_message rest

/-- `next_response` in `serial.rs`, translated like `next_message`; the
`0x62` arm is `unimplemented!()`. -/
def next_response : List Nat → Outcome Response
| [] => .panic .unwrapNone
| b :: rest =>
  if b = 0x02 then
    match rest with
    | [] => .panic .unwrapNone
    | o :: t =>
      if o = 0x60 then
        match t with
        | b0 :: b1 :: b2 :: b3 :: b4 :: b5 :: t2 =>
          .ok (.gotInfo ⟨b0, b1, b2⟩ (b3, b4)
            (if b5 = 0xFF then none else some b5)) t2
        | _ => .panic .unwrapNone
      else if o = 0x61 then
        match t with
        | g :: c :: br :: t2 => .ok (.sentLinkCommand g c br) t2
        | _ => .panic .unwrapNone
      else if o = 0x62 then .panic .notImplemented
      else if o = 0x63 then
        match t with
        | b0 :: b1 :: b2 :: t2 =>
          match X10.Message.tryFrom b0 b1 b2 with
          | some msg => .ok (.sentX10 msg) t2
          | none => next_response t2
        | _ => .panic .unwrapNone
      else if o = 0x64 then
        match t with
        | role :: g :: t2 => .ok (.startedLink role g) t2
        | _ => .panic .unwrapNone
      else if o = 0x65 then .ok .canceledLink t
      else if o = 0x66 then
        match t with
        | b0 :: b1 :: b2 :: t2 =>
          .ok (.setCategory (b0, b1) (if b2 = 0x00 then none else some b2)) t2
        | _ => .panic .unwrapNone
      else if o = 0x67 then .ok .reset t
      else if o = 0x68 then
        match t with
        | b0 :: t2 => .ok (.setAckByte b0) t2
        | _ => .panic .unwrapNone
      else if o = 0x69 then .ok .gotFirstLinkRecord t
      else if o = 0x6A then .ok .gotNextLinkRecord t
      else if o = 0x6B then
        match t with
        | b0 :: t2 => .ok (.setConfig (Config.fromByte b0)) t2
        | _ => .panic .unwrapNone
      else if o = 0x6C then .ok .gotSenderLinkRecord t
      else if o = 0x6D then .ok .ledOn t
      else if o = 0x6E then .ok .ledOff t
      else if o = 0x6F then
        match t with
        | b0 :: b1 :: b2 :: b3 :: b4 :: b5 :: b6 :: b7 :: b8 :: t2 =>
          .ok (.updatedLinkRecord b0 b1 b2 ⟨b3, b4, b5⟩ (b6, b7, b8)) t2
        | _ => .panic .unwrapNone
      else if o = 0x70 then
        match t with
        | b0 :: t2 => .ok (.setNakByte b0) t2
        | _ => .panic .unwrapNone
      else if o = 0x71 then
        match t with
        | b0 :: b1 :: t2 => .ok (.setAckBytes (b0, b1)) t2
        | _ => .panic .unwrapNone
      else if o = 0x72 then .ok .sleeping t
      else if o = 0x73 then
        match t with
        | b0 :: _r1 :: _r2 :: t2 => .ok (.gotConfig (Config.fromByte b0)) t2
        | _ => .panic .unwrapNone
      else next_response t
  else next_response rest

/-! ## Helper lemmas -/

/-- Every 4-bit nibble decodes to some house code. -/
lemma houseCode_tryFrom_total :
    ∀ n : Fin 16, (X10.HouseCode.tryFrom n.val).isSome = true := by decide

/-- Every 4-bit nibble decodes to some unit code. -/
lemma unitCode_tryFrom_total :
    ∀ n : Fin 16, (X10.UnitCode.tryFrom n.val).isSome = true := by decide

/-- Every 4-bit nibble decodes to some X10 command. -/
lemma x10Command_tryFrom_total :
    ∀ n : Fin 16, (X10.Command.tryFrom n.val).isSome = true := by decide

/-! ## Claims -/

/-- C10: for every `Address`, the `fmt::Display` implementation in
`device.rs` panics (`unimplemented!()`); no address is ever formatted
successfully. -/
theorem c10_address_display_panics (a : Address) :
    a.displayFmt = .panicked ∧ ∀ s, a.displayFmt ≠ .ok s :=
  ⟨rfl, fun _ h => FmtOutcome.noConfusion h⟩

/-- C7: the On-command encoding is lossy exactly as documented: decoding
the encoding of `On(OnLevel v)` yields `On(GroupNumber v)` for every byte
`v`, decoding the encoding of `On(GroupNumber g)` yields it back for every
byte `g`, and at `5` the decoded value is the group-number variant, not
the original level-tagged one. -/
theorem c7_on_command_lossy :
    (∀ v : Nat, Command.tryFrom (Command.encode (.on (.onLevel ⟨v⟩)))
      = some (.on (.groupNumber ⟨v⟩)))
    ∧ (∀ g : Nat, Command.tryFrom (Command.encode (.on (.groupNumber ⟨g⟩)))
      = some (.on (.groupNumber ⟨g⟩)))
    ∧ Command.tryFrom (Command.encode (.on (.groupNumber ⟨5⟩)))
      = some (.on (.groupNumber ⟨5⟩))
    ∧ Command.tryFrom (Command.encode (.on (.onLevel ⟨5⟩)))
      = some (.on (.groupNumber ⟨5⟩))
    ∧ Command.tryFrom (Command.encode (.on (.onLevel ⟨5⟩)))
      ≠ some (.on (.onLevel ⟨5⟩)) :=
  ⟨fun _ => rfl, fun _ => rfl, rfl, rfl, by decide⟩

set_option maxRecDepth 8192 in
/-- C6: the `Config` bitfield codec round-trips on all 32 flag
combinations, the encoded byte always has bits 2-0 clear, decoding
ignores bits 2-0, and the zero byte decodes to `auto_link = true`,
`timeout = true` and all other flags false (bits 7 and 4 are
wire-inverted). -/
theorem c6_config_roundtrip :
    (∀ a m l t b : Bool,
      Config.fromByte (Config.toByte ⟨a, m, l, t, b⟩) = ⟨a, m, l, t, b⟩)
    ∧ (∀ a m l t b : Bool, Config.toByte ⟨a, m, l, t, b⟩ % 8 = 0)
    ∧ (∀ byte : Fin 256,
      Config.fromByte byte.val = Config.fromByte (byte.val &&& 0xF8))
    ∧ Config.fromByte 0 = ⟨true, false, false, true, false⟩ := by
  refine ⟨by decide, by decide, by decide, by decide⟩

/-- C4 counterexample: on the frame `[0x02, 0x62]` the response decoder
hits `unimplemented!()`, i.e. it panics — it does not report a
recoverable error value. -/
theorem c4_counterexample :
    next_response [0x02, 0x62] = .panic .notImplemented := rfl

/-- C4 (amended): whenever the response decoder dispatches opcode `0x62`
it panics with the explicit "not implemented" marker, for every remaining
stream. -/
theorem c4_unimplemented_panics (l : List Nat) :
    next_response (0x02 :: 0x62 :: l) = .panic .notImplemented := by
  rw [next_response.eq_def]; simp

set_option maxHeartbeats 1600000 in
/-- C3: evaluation at the failing input: a byte source that delivers
`[0x02, 0x50]` and then fails (the 6-byte `read_exact` of the 0x50
payload fails) makes `next_message` panic via `.unwrap()` instead of
returning the terminal no-value result; likewise for `next_response` and
for an immediately-failing source. -/
theorem c3_read_failure_panics :
    next_message [0x02, 0x50] = .panic .unwrapNone
    ∧ next_message [] = .panic .unwrapNone
    ∧ next_response [0x02, 0x60] = .panic .unwrapNone
    ∧ next_response [] = .panic .unwrapNone
    ∧ (∀ l, next_message l ≠ .noValue)
    ∧ (∀ l, next_response l ≠ .noValue) := by
  refine ⟨rfl, rfl, rfl, rfl, fun l => ?_, fun l => ?_⟩
  · induction l using next_message.induct <;>
      (rw [next_message.eq_def]; simp_all)
  · induction l using next_response.induct <;>
      (rw [next_response.eq_def]; simp_all)

/-- C5 counterexample: the X10 command decode table is not injective —
nibbles `0xA` and `0xB` both decode to `presetDim` — so no encode
function inverts it on all 16 nibbles: encode∘decode cannot be the
identity at both `0xA` and `0xB`. -/
theorem c5_counterexample :
    X10.Command.tryFrom 0xA = some .presetDim
    ∧ X10.Command.tryFrom 0xB = some .presetDim
    ∧ ¬ ∃ enc : X10.Command → Nat,
        ∀ n c, X10.Command.tryFrom n = some c → enc c = n :=
  ⟨rfl, rfl, fun ⟨enc, h⟩ => by
    have h1 := h 0xA .presetDim rfl
    have h2 := h 0xB .presetDim rfl
    omega⟩

/-- C5 (amended): with the encode direction modelled from the spec's
permutation table, house codes and unit codes round-trip in both
directions on all 16 nibbles and all 16 values; commands round-trip as
decode∘encode = identity on all 15 commands, and encode∘decode is the
identity on every nibble except `0xB`, which decodes to `presetDim` and
re-encodes to `0xA` (the decode table maps both `0xA` and `0xB` to
`presetDim`, and the command table has only 15 values for 16 nibbles). -/
theorem c5_subprotocol_roundtrip :
    (∀ h : X10.HouseCode, X10.HouseCode.tryFrom h.nibble = some h)
    ∧ (∀ n : Fin 16,
      (X10.HouseCode.tryFrom n.val).map X10.HouseCode.nibble = some n.val)
    ∧ (∀ n : Fin 16,
      X10.UnitCode.tryFrom (X10.UnitCode.nibble ⟨n.val + 1⟩)
        = some ⟨n.val + 1⟩)
    ∧ (∀ n : Fin 16,
      (X10.UnitCode.tryFrom n.val).map X10.UnitCode.nibble = some n.val)
    ∧ (∀ c : X10.Command, X10.Command.tryFrom c.nibble = some c)
    ∧ (∀ n : Fin 16,
      (X10.Command.tryFrom n.val).map X10.Command.nibble
        = some (if n.val = 0xB then 0xA else n.val)) := by
  refine ⟨by decide, by decide, by decide, by decide, by decide, by decide⟩

/-- C8: `LinkResult` construction from an 8-byte payload: byte 0 selects
the tri-state role (0x00 responder, 0x01 controller, anything else
deleted), byte 1 is the group, bytes 2-4 the peer address, bytes 5-6
category and subcategory, byte 7 the firmware with `0xFF` as the absent
sentinel; the category, subcategory and firmware accessors are absent
whenever the role is not controller. -/
theorem c8_link_result (b0 b1 b2 b3 b4 b5 b6 b7 : Nat) :
    (LinkResult.fromBytes b0 b1 b2 b3 b4 b5 b6 b7).is_controller
      = (if b0 = 0 then some false else if b0 = 1 then some true else none)
    ∧ (LinkResult.fromBytes b0 b1 b2 b3 b4 b5 b6 b7).group = b1
    ∧ (LinkResult.fromBytes b0 b1 b2 b3 b4 b5 b6 b7).id = ⟨b2, b3, b4⟩
    ∧ (LinkResult.fromBytes b0 b1 b2 b3 b4 b5 b6 b7).category = (b5, b6)
    ∧ (LinkResult.fromBytes b0 b1 b2 b3 b4 b5 b6 b7).firmware
      = (if b7 = 0xFF then none else some b7)
    ∧ (LinkResult.fromBytes b0 b1 b2 b3 b4 b5 b6 b7).is_responder = (b0 == 0)
    ∧ (LinkResult.fromBytes b0 b1 b2 b3 b4 b5 b6 b7).isControllerAcc = (b0 == 1)
    ∧ (LinkResult.fromBytes b0 b1 b2 b3 b4 b5 b6 b7).deleted
      = (b0 != 0 && b0 != 1)
    ∧ (LinkResult.fromBytes b0 b1 b2 b3 b4 b5 b6 b7).categoryAcc
      = (if b0 = 1 then some b5 else none)
    ∧ (LinkResult.fromBytes b0 b1 b2 b3 b4 b5 b6 b7).subcategoryAcc
      = (if b0 = 1 then some b6 else none)
    ∧ (LinkResult.fromBytes b0 b1 b2 b3 b4 b5 b6 b7).firmwareAcc
      = (if b0 = 1 then (if b7 = 0xFF then none else some b7) else none) := by
  refine ⟨rfl, rfl, rfl, rfl, rfl, ?_, ?_, ?_, ?_, ?_, ?_⟩ <;>
    rcases b0 with _ | _ | n <;>
      simp [LinkResult.fromBytes, LinkResult.is_responder, LinkResult.is_slave,
        LinkResult.isControllerAcc, LinkResult.is_master, LinkResult.deleted,
        LinkResult.categoryAcc, LinkResult.subcategoryAcc,
        LinkResult.firmwareAcc]

/-- C9: for every 3-byte input (bytes < 256), `x10::Message::try_from`
succeeds exactly when the flag byte is `0x00` or `0x80` — the nibble
tables are total on all 16 nibbles, so the flag byte is the sole cause of
failure — and the parsed message's `success` field is `bytes[2] == 0x06`. -/
theorem c9_x10_flag_gate (b0 b1 b2 : Nat) (h : b0 < 256) :
    (X10.Message.tryFrom b0 b1 b2).map X10.Message.success
      = (if b1 = 0x00 ∨ b1 = 0x80 then some (b2 == 0x06) else none) := by
  have hh : b0 >>> 4 < 16 := by
    rw [Nat.shiftRight_eq_div_pow]; omega
  have hl : b0 &&& 0x0f < 16 := by
    have := Nat.and_lt_two_pow b0 (show 15 < 2 ^ 4 by norm_num)
    simpa using this
  obtain ⟨house, hhouse⟩ :=
    Option.isSome_iff_exists.mp (houseCode_tryFrom_total ⟨b0 >>> 4, hh⟩)
  by_cases h1 : b1 = 0x00
  · obtain ⟨u, hu⟩ :=
      Option.isSome_iff_exists.mp (unitCode_tryFrom_total ⟨b0 &&& 0x0f, hl⟩)
    simp [X10.Message.tryFrom, hhouse, h1, hu]
  · by_cases h2 : b1 = 0x80
    · obtain ⟨c, hc⟩ :=
        Option.isSome_iff_exists.mp (x10Command_tryFrom_total ⟨b0 &&& 0x0f, hl⟩)
      simp [X10.Message.tryFrom, hhouse, h1, h2, hc]
    · simp [X10.Message.tryFrom, hhouse, h1, h2]

/-- C9 witness: the theorem applied at the concrete bytes
`[0x66, 0x00, 0x06]` (house A, unit 1, success). -/
theorem c9_x10_flag_gate_witness :
    (X10.Message.tryFrom 0x66 0x00 0x06).map X10.Message.success
      = some true := by
  have h := c9_x10_flag_gate 0x66 0x00 0x06 (by norm_num)
  simpa using h

/-- C1: the stream `[0x02, 0xFF, 0x02, 0x50, b0..b5]` decodes to exactly
one `Received` message built from `b0..b5` (address `b0..b2`, command
attempt from `b3,b4`, flags `b5`, no extended data), silently skipping
the unrecognized opcode `0xFF`; in general an unrecognized opcode, or an
unrecognized button-event sub-dispatch byte, discards only the bytes
consumed for that attempt and scanning resumes at the next `0x02`. -/
theorem c1_resynchronization (b0 b1 b2 b3 b4 b5 o s : Nat)
    (ho : o ∉ ([0x50, 0x51, 0x52, 0x53, 0x54, 0x55, 0x56, 0x57, 0x58, 0x59] :
      List Nat))
    (hs : s ∉ ([0x02, 0x03, 0x04, 0x12, 0x13, 0x14, 0x22, 0x23, 0x24] :
      List Nat)) :
    next_message [0x02, 0xFF, 0x02, 0x50, b0, b1, b2, b3, b4, b5]
      = .ok (.received ⟨b0, b1, b2⟩ (Command.tryFrom (b3, b4)) b5 none) []
    ∧ (∀ l, next_message (0x02 :: o :: l) = next_message l)
    ∧ (∀ l, next_message (0x02 :: 0x54 :: s :: l) = next_message l) := by
  simp only [List.mem_cons, List.not_mem_nil, or_false, not_or] at ho hs
  obtain ⟨o1, o2, o3, o4, o5, o6, o7, o8, o9, o10⟩ := ho
  obtain ⟨s1, s2, s3, s4, s5, s6, s7, s8, s9⟩ := hs
  refine ⟨rfl, fun l => ?_, fun l => ?_⟩
  · rw [next_message.eq_def]
    simp [o1, o2, o3, o4, o5, o6, o7, o8, o9, o10]
  · rw [next_message.eq_def]
    simp [s1, s2, s3, s4, s5, s6, s7, s8, s9]

/-- C1 witness: the theorem applied at the concrete bytes
`b0..b5 = 1..6`, unrecognized opcode `0xFF` and unrecognized sub-dispatch
byte `0x05`. -/
theorem c1_resynchronization_witness :
    next_message [0x02, 0xFF, 0x02, 0x50, 1, 2, 3, 4, 5, 6]
      = .ok (.received ⟨1, 2, 3⟩ (Command.tryFrom (4, 5)) 6 none) []
    ∧ next_message [0x02, 0xFF, 9] = next_message [9]
    ∧ next_message [0x02, 0x54, 0x05, 9] = next_message [9] := by
  have h := c1_resynchronization 1 2 3 4 5 6 0xFF 0x05 (by decide) (by decide)
  exact ⟨h.1, h.2.1 [9], h.2.2 [9]⟩

/-- C2: for every opcode in the message (0x50-0x59) and response
(0x60-0x73, except the undefined 0x62) dispatch tables, a frame
`[0x02, opcode, payload]` of the fixed documented length decodes to the
documented variant with the payload bytes at their documented positions;
a 0x51 frame's last 14 payload bytes form the extended data block and its
bytes 3-4 go through the command codec's decode direction, an
unrecognized pair (e.g. `0xFF 0x00`) yielding an absent command rather
than a frame failure. -/
theorem c2_dispatch_tables :
    (∀ b0 b1 b2 b3 b4 b5 l,
      next_message (0x02 :: 0x50 :: b0 :: b1 :: b2 :: b3 :: b4 :: b5 :: l)
        = .ok (.received ⟨b0, b1, b2⟩ (Command.tryFrom (b3, b4)) b5 none) l)
    ∧ (∀ b0 b1 b2 b3 b4 b5 b6 b7 b8 b9 b10 b11 b12 b13 b14 b15 b16 b17 b18
        b19 l,
      next_message (0x02 :: 0x51 :: b0 :: b1 :: b2 :: b3 :: b4 :: b5 :: b6 ::
          b7 :: b8 :: b9 :: b10 :: b11 :: b12 :: b13 :: b14 :: b15 :: b16 ::
          b17 :: b18 :: b19 :: l)
        = .ok (.received ⟨b0, b1, b2⟩ (Command.tryFrom (b3, b4)) b5
            (some [b6, b7, b8, b9, b10, b11, b12, b13, b14, b15, b16, b17,
                   b18, b19])) l)
    ∧ (∀ b0 b1 b2 b5 b6 b7 b8 b9 b10 b11 b12 b13 b14 b15 b16 b17 b18 b19 l,
      next_message (0x02 :: 0x51 :: b0 :: b1 :: b2 :: 0xFF :: 0x00 :: b5 ::
          b6 :: b7 :: b8 :: b9 :: b10 :: b11 :: b12 :: b13 :: b14 :: b15 ::
          b16 :: b17 :: b18 :: b19 :: l)
        = .ok (.received ⟨b0, b1, b2⟩ none b5
            (some [b6, b7, b8, b9, b10, b11, b12, b13, b14, b15, b16, b17,
                   b18, b19])) l)
    ∧ (∀ b0 b1 b2 l,
      next_message (0x02 :: 0x52 :: b0 :: b1 :: b2 :: l)
        = match X10.Message.tryFrom b0 b1 b2 with
          | some m => .ok (.x10Received m) l
          | none => next_message l)
    ∧ (∀ b0 b1 b2 b3 b4 b5 b6 b7 l,
      next_message (0x02 :: 0x53 :: b0 :: b1 :: b2 :: b3 :: b4 :: b5 :: b6 ::
          b7 :: l)
        = .ok (.linkComplete (LinkResult.fromBytes b0 b1 b2 b3 b4 b5 b6 b7))
            l)
    ∧ (∀ l, next_message (0x02 :: 0x54 :: 0x02 :: l)
        = .ok (.buttonEvent (.tapped .set)) l)
    ∧ (∀ l, next_message (0x02 :: 0x54 :: 0x03 :: l)
        = .ok (.buttonEvent (.held .set)) l)
    ∧ (∀ l, next_message (0x02 :: 0x54 :: 0x04 :: l)
        = .ok (.buttonEvent (.released .set)) l)
    ∧ (∀ l, next_message (0x02 :: 0x54 :: 0x12 :: l)
        = .ok (.buttonEvent (.tapped .two)) l)
    ∧ (∀ l, next_message (0x02 :: 0x54 :: 0x13 :: l)
        = .ok (.buttonEvent (.held .two)) l)
    ∧ (∀ l, next_message (0x02 :: 0x54 :: 0x14 :: l)
        = .ok (.buttonEvent (.released .two)) l)
    ∧ (∀ l, next_message (0x02 :: 0x54 :: 0x22 :: l)
        = .ok (.buttonEvent (.tapped .three)) l)
    ∧ (∀ l, next_message (0x02 :: 0x54 :: 0x23 :: l)
        = .ok (.buttonEvent (.held .three)) l)
    ∧ (∀ l, next_message (0x02 :: 0x54 :: 0x24 :: l)
        = .ok (.buttonEvent (.released .three)) l)
    ∧ (∀ l, next_message (0x02 :: 0x55 :: l) = .ok .userResetDetected l)
    ∧ (∀ pad g a0 a1 a2 l,
      next_message (0x02 :: 0x56 :: pad :: g :: a0 :: a1 :: a2 :: l)
        = .ok (.linkCleanupFailed g ⟨a0, a1, a2⟩) l)
    ∧ (∀ f g i0 i1 i2 d0 d1 d2 l,
      next_message (0x02 :: 0x57 :: f :: g :: i0 :: i1 :: i2 :: d0 :: d1 ::
          d2 :: l)
        = .ok (.linkRecordResponse f g ⟨i0, i1, i2⟩ ⟨d0, d1, d2⟩) l)
    ∧ (∀ s l, next_message (0x02 :: 0x58 :: s :: l)
        = .ok (.linkCleanupStatus (s == 0x06)) l)
    ∧ (∀ a0 a1 f g i0 i1 i2 d0 d1 d2 l,
      next_message (0x02 :: 0x59 :: a0 :: a1 :: f :: g :: i0 :: i1 :: i2 ::
          d0 :: d1 :: d2 :: l)
        = .ok (.databaseRecordFound (a0, a1) f g ⟨i0, i1, i2⟩ ⟨d0, d1, d2⟩)
            l)
    ∧ (∀ b0 b1 b2 b3 b4 b5 l,
      next_response (0x02 :: 0x60 :: b0 :: b1 :: b2 :: b3 :: b4 :: b5 :: l)
        = .ok (.gotInfo ⟨b0, b1, b2⟩ (b3, b4)
            (if b5 = 0xFF then none else some b5)) l)
    ∧ (∀ g c br l,
      next_response (0x02 :: 0x61 :: g :: c :: br :: l)
        = .ok (.sentLinkCommand g c br) l)
    ∧ (∀ b0 b1 b2 l,
      next_response (0x02 :: 0x63 :: b0 :: b1 :: b2 :: l)
        = match X10.Message.tryFrom b0 b1 b2 with
          | some m => .ok (.sentX10 m) l
          | none => next_response l)
    ∧ (∀ role g l,
      next_response (0x02 :: 0x64 :: role :: g :: l)
        = .ok (.startedLink role g) l)
    ∧ (∀ l, next_response (0x02 :: 0x65 :: l) = .ok .canceledLink l)
    ∧ (∀ b0 b1 b2 l,
      next_response (0x02 :: 0x66 :: b0 :: b1 :: b2 :: l)
        = .ok (.setCategory (b0, b1) (if b2 = 0x00 then none else some b2))
            l)
    ∧ (∀ l, next_response (0x02 :: 0x67 :: l) = .ok .reset l)
    ∧ (∀ b l, next_response (0x02 :: 0x68 :: b :: l) = .ok (.setAckByte b) l)
    ∧ (∀ l, next_response (0x02 :: 0x69 :: l) = .ok .gotFirstLinkRecord l)
    ∧ (∀ l, next_response (0x02 :: 0x6A :: l) = .ok .gotNextLinkRecord l)
    ∧ (∀ b l, next_response (0x02 :: 0x6B :: b :: l)
        = .ok (.setConfig (Config.fromByte b)) l)
    ∧ (∀ l, next_response (0x02 :: 0x6C :: l) = .ok .gotSenderLinkRecord l)
    ∧ (∀ l, next_response (0x02 :: 0x6D :: l) = .ok .ledOn l)
    ∧ (∀ l, next_response (0x02 :: 0x6E :: l) = .ok .ledOff l)
    ∧ (∀ b0 b1 b2 b3 b4 b5 b6 b7 b8 l,
      next_response (0x02 :: 0x6F :: b0 :: b1 :: b2 :: b3 :: b4 :: b5 :: b6 ::
          b7 :: b8 :: l)
        = .ok (.updatedLinkRecord b0 b1 b2 ⟨b3, b4, b5⟩ (b6, b7, b8)) l)
    ∧ (∀ b l, next_response (0x02 :: 0x70 :: b :: l) = .ok (.setNakByte b) l)
    ∧ (∀ b0 b1 l, next_response (0x02 :: 0x71 :: b0 :: b1 :: l)
        = .ok (.setAckBytes (b0, b1)) l)
    ∧ (∀ l, next_response (0x02 :: 0x72 :: l) = .ok .sleeping l)
    ∧ (∀ c r1 r2 l, next_response (0x02 :: 0x73 :: c :: r1 :: r2 :: l)
        = .ok (.gotConfig (Config.fromByte c)) l) := by
  refine ⟨?_, ?_, ?_, ?_, ?_, ?_, ?_, ?_, ?_, ?_, ?_, ?_, ?_, ?_, ?_, ?_,
    ?_, ?_, ?_, ?_, ?_, ?_, ?_, ?_, ?_, ?_, ?_, ?_, ?_, ?_, ?_, ?_, ?_, ?_,
    ?_, ?_, ?_, ?_⟩ <;>
    intros <;> first
      | rfl
      | (rw [next_message.eq_def]; simp)
      | (rw [next_response.eq_def]; simp)
